import Mathlib

/-!
Verification development for the osmosis swap-orchestration contract
(`src/contracts/osmosis/src/commands.rs`).

The command handlers are shallowly embedded as pure functions over an explicit
`Storage` record.  External collaborators (the osmosis router's message
builder and reply decoder, the protobuf decoder of `MsgTransferResponse`, the
pool-manager querier) are abstracted as per-call parameters holding the
collaborator's result for that call, since their code is outside this
repository.  The storage helper functions live in `state.rs`, which is not
part of the provided sources; they are modelled from the spec and each such
definition is marked `Modelled from the spec:` in its doc comment.

CosmWasm machine integers (`Uint128`) are modelled as `Nat` (the contract
performs no arithmetic on them that can overflow 128 bits in the scenarios
considered; divisions are the truncating `Nat` divisions of the source, with
division by zero made explicit as a panic outcome).  `Decimal` values are
modelled as exact rationals `ℚ`; `Decimal` is an unsigned fixed-point type
whose subtraction panics on underflow and whose division panics on a zero
divisor, and both panic conditions are modelled explicitly.
-/

namespace Osmosis

/-- A cosmos coin: denomination and (128-bit, modelled as `Nat`) amount. -/
structure Coin where
  denom : String
  amount : Nat
deriving Repr, DecidableEq

/-- The part of the CosmWasm `Env` the embedded handlers read: the contract's
own address and the current block time in nanoseconds. -/
structure Env where
  contractAddress : String
  blockTimeNanos : Nat
deriving Repr, DecidableEq

/-- JSON-like value model for the caller-supplied IBC memo, following the
source's `serde_cw_value::Value` as used here: objects are key-ordered
association lists (the source uses a `BTreeMap`). -/
inductive Json where
  | str (s : String)
  | num (n : Int)
  | bool (b : Bool)
  | null
  | arr (xs : List Json)
  | obj (kvs : List (String × Json))

/-- Ordered-map insert with replacement, mirroring `BTreeMap::insert` on a
key-sorted association list. -/
def Json.insertKey (kvs : List (String × Json)) (k : String) (v : Json) :
    List (String × Json) :=
  match kvs with
  | [] => [(k, v)]
  | (k0, v0) :: rest =>
    if k < k0 then (k, v) :: (k0, v0) :: rest
    else if k = k0 then (k, v) :: rest
    else (k0, v0) :: Json.insertKey rest k v

mutual

/-- JSON serialization, mirroring `serde_json_wasm::to_string` on the value
model (string escaping is elided: the strings appearing in the development
contain no characters needing escapes).  On this model, with string keys only,
serialization is total, matching the fact that the source's
`serde_json_wasm::to_string` only fails on maps with non-string keys. -/
def Json.serialize : Json → String
  | .str s => "\"" ++ s ++ "\""
  | .num n => toString n
  | .bool b => if b then "true" else "false"
  | .null => "null"
  | .arr xs => "[" ++ Json.serializeSeq xs ++ "]"
  | .obj kvs => "\x7b" ++ Json.serializeObj kvs ++ "\x7d"

/-- Comma-separated serialization of a JSON array's elements. -/
def Json.serializeSeq : List Json → String
  | [] => ""
  | [x] => Json.serialize x
  | x :: xs => Json.serialize x ++ "," ++ Json.serializeSeq xs

/-- Comma-separated serialization of a JSON object's key/value pairs. -/
def Json.serializeObj : List (String × Json) → String
  | [] => ""
  | [(k, v)] => "\"" ++ k ++ "\":" ++ Json.serialize v
  | (k, v) :: rest => "\"" ++ k ++ "\":" ++ Json.serialize v ++ "," ++ Json.serializeObj rest

end

/-- Opaque wire form of the osmosis router's swap specification
(`osmosis_router::OsmosisSwapMsg`); its contents are never inspected by the
embedded code. -/
structure OsmosisSwapMsg where
  raw : String
deriving Repr, DecidableEq

/-- The after-swap continuation recorded at initiation time
(`msg.rs::AfterSwapAction`; the declaration lives outside `src/`, its variants
are taken from the spec and from the `match` in `handle_after_swap_action`).
The `CustomCall` payload is opaque to the handler and modelled as a string. -/
inductive AfterSwapAction where
  | bankSend (receiver : String)
  | customCall (contract_address : String) (msg : String)
  | ibcTransfer (receiver : String) (channel : String) (next_memo : Option Json)

/-- Reply identifiers attached to emitted sub-messages
(`msg.rs::MsgReplyId`, modelled from the spec: `Swap`, `IbcTransfer`,
`MultiSwap`). -/
inductive MsgReplyId where
  | swap
  | ibcTransfer
  | multiSwap
deriving Repr, DecidableEq

/-- One queued multi-swap step (`msg.rs::MultiSwapMsg`, fields as used by
`handle_multiswap_reply`). -/
structure MultiSwapMsg where
  swap_msg : OsmosisSwapMsg
  after_swap_action : AfterSwapAction
  amount_in : Coin

/-- The IBC fungible-token transfer request (`MsgTransfer`) as built by
`handle_after_swap_action`. -/
structure MsgTransfer where
  source_port : String
  source_channel : String
  token : Option Coin
  sender : String
  receiver : String
  timeout_height : Option Nat
  timeout_timestamp : Option Nat
  memo : String

/-- Serialized payload of a `WasmMsg::Execute`: either the opaque custom-call
payload, or the contract's own `ExecuteMsg::SwapWithAction` used by the
multi-swap driver (the injective constructor models `to_binary`). -/
inductive WasmPayload where
  | custom (msg : String)
  | swapWithAction (swap_msg : OsmosisSwapMsg) (after_swap_action : AfterSwapAction)
      (local_fallback_address : String)

/-- Outbound cosmos messages emitted by the handlers. -/
inductive CosmosMsg where
  | bank (to_address : String) (amount : List Coin)
  | wasmExecute (contract_addr : String) (msg : WasmPayload) (funds : List Coin)
  | ibcTransfer (t : MsgTransfer)
  | poolSwap (raw : String)

/-- When the host is asked to resume this contract for a sub-message. -/
inductive ReplyOn where
  | never
  | success
deriving Repr, DecidableEq

/-- A sub-message: a cosmos message plus its reply tag. -/
structure SubMsg where
  msg : CosmosMsg
  id : Option MsgReplyId
  replyOn : ReplyOn

/-- `Response::add_message`: no reply requested. -/
def SubMsg.new (m : CosmosMsg) : SubMsg := ⟨m, none, .never⟩

/-- `SubMsg::reply_on_success`. -/
def SubMsg.reply_on_success (m : CosmosMsg) (i : MsgReplyId) : SubMsg := ⟨m, some i, .success⟩

/-- A handler response: the list of emitted sub-messages. -/
structure Response where
  messages : List SubMsg

/-- Errors of `cw_utils::one_coin` (external crate, fixed semantics:
no attached funds / a single zero coin / several denominations). -/
inductive PaymentError where
  | noFunds
  | multipleDenoms
deriving Repr, DecidableEq

/-- `cw_utils::one_coin`: exactly one attached coin with nonzero amount. -/
def one_coin (funds : List Coin) : Except PaymentError Coin :=
  match funds with
  | [] => .error .noFunds
  | [c] => if c.amount = 0 then .error .noFunds else .ok c
  | _ => .error .multipleDenoms

/-- The contract's error taxonomy (`ContractError`); message payloads are not
compared by any claim and are elided. `std` stands for propagated host
`StdError`s (failed storage loads, failed querier calls), `routerError` for
propagated `osmosis_router` errors. -/
inductive ContractError where
  | contractLocked
  | payment (e : PaymentError)
  | routerError
  | std
  | invalidAmountOfSwaps
  | invalidMemo
  | failedIBCTransfer
  | invalidSpotPrice
  | zeroTokenOut
deriving Repr, DecidableEq

/-- Continuation state of the in-flight single swap
(`state.rs::SwapReplyState`). -/
structure SwapReplyState where
  after_swap_action : AfterSwapAction
  local_fallback_address : String

/-- Continuation state of the in-flight IBC transfer
(`state.rs::IbcTransferReplyState`). -/
structure IbcTransferReplyState where
  local_fallback_address : String
  channel : String
  denom : String
  amount : Nat

/-- The multi-swap queue (`state.rs::MultiSwapState`); `swaps` is stored
reversed, the tail of the queue (last list element) is the next step to run. -/
structure MultiSwapState where
  swaps : List MultiSwapMsg
  local_fallback_address : String

/-- The contract's storage: the three single-slot continuation regions and the
sequence-number-keyed table of awaiting IBC transfers (newest record first;
lookups take the first match, matching overwrite-on-store semantics). -/
structure Storage where
  swapReply : Option SwapReplyState
  ibcTransferReply : Option IbcTransferReplyState
  multiSwap : Option MultiSwapState
  awaitingIbcTransfer : List (Nat × IbcTransferReplyState)

/-- Modelled from the spec: `state.rs::swap_reply_state_exists` (state.rs is
not under `src/`); the slot's presence is the re-entrancy guard. -/
def swap_reply_state_exists (st : Storage) : Bool := st.swapReply.isSome

/-- Modelled from the spec: `state.rs::store_swap_reply_state`. -/
def store_swap_reply_state (st : Storage) (v : SwapReplyState) : Storage :=
  { st with swapReply := some v }

/-- Modelled from the spec: `state.rs::load_swap_reply_state`; per the spec
the reply dispatcher "loads and implicitly clears `SwapReplyState`", so the
load empties the slot; `none` models the `StdError` of loading an empty
slot. -/
def load_swap_reply_state (st : Storage) : Option (SwapReplyState × Storage) :=
  st.swapReply.map (fun v => (v, { st with swapReply := none }))

/-- Modelled from the spec: `state.rs::store_ibc_transfer_reply_state`. -/
def store_ibc_transfer_reply_state (st : Storage) (v : IbcTransferReplyState) : Storage :=
  { st with ibcTransferReply := some v }

/-- Modelled from the spec: `state.rs::load_ibc_transfer_reply_state`; per the
spec the handler "loads and clears `IbcTransferReplyState`". -/
def load_ibc_transfer_reply_state (st : Storage) :
    Option (IbcTransferReplyState × Storage) :=
  st.ibcTransferReply.map (fun v => (v, { st with ibcTransferReply := none }))

/-- Modelled from the spec: `state.rs::store_awaiting_ibc_transfer`, a keyed
store into the sequence-number-indexed table. -/
def store_awaiting_ibc_transfer (st : Storage) (sequence : Nat)
    (v : IbcTransferReplyState) : Storage :=
  { st with awaitingIbcTransfer := (sequence, v) :: st.awaitingIbcTransfer }

/-- Keyed lookup in the awaiting-transfer table (first, i.e. newest, match). -/
def lookup_awaiting (st : Storage) (sequence : Nat) : Option IbcTransferReplyState :=
  (st.awaitingIbcTransfer.find? (fun p => p.1 == sequence)).map (·.2)

/-- Modelled from the spec: `state.rs::load_multi_swap_state`; `none` models
the `StdError` of loading an empty slot. -/
def load_multi_swap_state (st : Storage) : Option MultiSwapState := st.multiSwap

/-- Modelled from the spec: `state.rs::store_multi_swap_state`. -/
def store_multi_swap_state (st : Storage) (v : MultiSwapState) : Storage :=
  { st with multiSwap := some v }

/-- Modelled from the spec: `state.rs::remove_multi_swap_state`. -/
def remove_multi_swap_state (st : Storage) : Storage :=
  { st with multiSwap := none }

/-- Result of a command handler.  `.ok` carries the updated storage and the
response; `.err` carries the `ContractError` (the host rolls back every state
mutation of a failed call, so an error result carries no storage); `.panic`
models a Rust panic aborting the call (the source's `unreachable!`). -/
inductive CmdResult where
  | ok (st : Storage) (resp : Response)
  | err (e : ContractError)
  | panic

/-- `const TRANSFER_PORT`. -/
def TRANSFER_PORT : String := "transfer"

/-- `const IBC_CALLBACK`. -/
def IBC_CALLBACK : String := "ibc_callback"

/-- `const IBC_PACKET_LIFITIME` (seconds; the source's spelling). -/
def IBC_PACKET_LIFITIME : Nat := 604800

/-- `commands.rs::swap`.  `built_swap_msg` is the result of the external
collaborator `osmosis_router::build_swap_msg` for this call (`none` = the
collaborator failed); `funds` are the coins attached to the call
(`info.funds`). -/
def swap (st : Storage) (built_swap_msg : Option String) (funds : List Coin)
    (after_swap_action : AfterSwapAction) (local_fallback_address : String) : CmdResult :=
  if swap_reply_state_exists st then
    .err .contractLocked
  else
    match one_coin funds with
    | .error e => .err (.payment e)
    | .ok _input_coin =>
      match built_swap_msg with
      | none => .err .routerError
      | some m =>
        .ok (store_swap_reply_state st ⟨after_swap_action, local_fallback_address⟩)
          ⟨[SubMsg.reply_on_success (.poolSwap m) .swap]⟩

/-- `commands.rs::handle_after_swap_action`.  `output_coin` is the result of
the external collaborator `osmosis_router::get_swap_amount_out_response`
decoding the swap reply (`none` = decode failure, propagated as a router
error). -/
def handle_after_swap_action (st : Storage) (env : Env) (output_coin : Option Coin) :
    CmdResult :=
  match output_coin with
  | none => .err .routerError
  | some output_coin =>
    match load_swap_reply_state st with
    | none => .err .std
    | some (after_swap_info, st1) =>
      match after_swap_info.after_swap_action with
      | .bankSend receiver =>
        .ok st1 ⟨[SubMsg.new (.bank receiver [output_coin])]⟩
      | .customCall contract_address msg =>
        .ok st1 ⟨[SubMsg.new (.wasmExecute contract_address (.custom msg) [output_coin])]⟩
      | .ibcTransfer receiver channel next_memo =>
        match next_memo.getD (Json.obj []) with
        | .obj m =>
          .ok (store_ibc_transfer_reply_state st1
                ⟨after_swap_info.local_fallback_address, channel,
                  output_coin.denom, output_coin.amount⟩)
            ⟨[SubMsg.reply_on_success
                (.ibcTransfer
                  { source_port := TRANSFER_PORT
                    source_channel := channel
                    token := some output_coin
                    sender := env.contractAddress
                    receiver := receiver
                    timeout_height := none
                    timeout_timestamp :=
                      some (env.blockTimeNanos + IBC_PACKET_LIFITIME * 1000000000)
                    memo := Json.serialize
                      (.obj (Json.insertKey m IBC_CALLBACK (.str env.contractAddress))) })
                .ibcTransfer]⟩
        | _ => .panic

/-- The sub-message result carried by a `Reply` (`SubMsgResult`): success with
optional response data (bytes), or failure. -/
inductive SubMsgResult where
  | ok (data : Option (List Nat))
  | err (msg : String)

/-- A host reply (`cosmwasm_std::Reply`): the emitted sub-message's id and its
result. -/
structure Reply where
  id : Nat
  result : SubMsgResult

/-- The response data of a reply when it is a success carrying data. -/
def good_data (reply : Reply) : Option (List Nat) :=
  match reply.result with
  | .ok (some b) => some b
  | _ => none

/-- `commands.rs::handle_ibc_transfer_reply`.  `decode` is the external
protobuf decoder `MsgTransferResponse::decode`, abstracted as a function from
the response bytes to the decoded sequence number (`none` = decode failure). -/
def handle_ibc_transfer_reply (st : Storage) (reply : Reply)
    (decode : List Nat → Option Nat) : CmdResult :=
  match good_data reply with
  | none => .err .failedIBCTransfer
  | some b =>
    match decode b with
    | none => .err .failedIBCTransfer
    | some sequence =>
      match load_ibc_transfer_reply_state st with
      | none => .err .std
      | some (ibc_transfer_info, st1) =>
        .ok (store_awaiting_ibc_transfer st1 sequence ibc_transfer_info) ⟨[]⟩

/-- `commands.rs::handle_multiswap_reply`: pop the queue's last element (the
next step in submitted order), persist the shorter queue, and emit a
self-addressed `SwapWithAction` call for the step, tagged `MultiSwap`; if the
queue is empty, remove the state and terminate. -/
def handle_multiswap_reply (st : Storage) (env : Env) : CmdResult :=
  match load_multi_swap_state st with
  | none => .err .std
  | some multi_swaps =>
    match multi_swaps.swaps.getLast? with
    | none => .ok (remove_multi_swap_state st) ⟨[]⟩
    | some next_swap =>
      .ok (store_multi_swap_state st
            ⟨multi_swaps.swaps.dropLast, multi_swaps.local_fallback_address⟩)
        ⟨[SubMsg.reply_on_success
            (.wasmExecute env.contractAddress
              (.swapWithAction next_swap.swap_msg next_swap.after_swap_action
                multi_swaps.local_fallback_address)
              [next_swap.amount_in])
            .multiSwap]⟩

/-- `commands.rs::handle_multiswap`: reject an empty step list, store the
reversed queue, and immediately process the first step. -/
def handle_multiswap (st : Storage) (env : Env) (swaps : List MultiSwapMsg)
    (local_fallback_address : String) : CmdResult :=
  if swaps.isEmpty then .err .invalidAmountOfSwaps
  else handle_multiswap_reply
    (store_multi_swap_state st ⟨swaps.reverse, local_fallback_address⟩) env

/-- Kind of Rust panic arising in the sizing search's arithmetic: division by
a zero `Uint128`/`Decimal`, or underflow of the unsigned `Decimal`
subtraction. -/
inductive PanicKind where
  | divisionByZero
  | subtractionUnderflow
deriving Repr, DecidableEq

/-- Result of the sizing search.  `.ok` carries the returned
`PriceImpactTradeResponse` (`amount_in`, `amount_out` coins); `.panic` records
the panic kind together with the loop's current input amount at the point the
source would panic (the extra amount is instrumentation for the statements
below; the source simply aborts there). -/
inductive SizingExit where
  | ok (amount_in : Coin) (amount_out : Coin)
  | err (e : ContractError)
  | panic (k : PanicKind) (amount : Nat)
deriving Repr, DecidableEq

/-- The halving loop of
`commands.rs::estimate_price_impact_twap_min_input_output`.

`quote` is the token-out amount answered by the external pool querier's
`estimate_single_pool_swap_exact_amount_in(pool_id, input_coin.denom,
to_coin_denom)`.  The source passes only `input_coin.denom` as `token_in` —
the current amount is never part of the request — so with a deterministic
querier the quoted output is one constant across iterations, which is why
`quote` is a single `Nat` here.

The body mirrors the source line by line: a zero quote fails `ZeroTokenOut`;
`curr_trade_price = token_out.amount / input_coin.amount` is truncating
`Uint128` division, which panics (division by zero) once the amount is zero;
`price_deviation = (spot_price - curr_trade_price) / curr_trade_price` is
`Decimal` arithmetic, whose unsigned subtraction panics on underflow when
`curr_trade_price > spot_price` and whose division panics when
`curr_trade_price = 0`; a deviation within the bound returns, otherwise the
amount is halved (truncating) and the loop repeats. -/
def sizing_loop (spot_price bound : ℚ) (quote : Nat) (in_denom to_coin_denom : String)
    (amount : Nat) : SizingExit :=
  if quote = 0 then .err .zeroTokenOut
  else if h0 : amount = 0 then .panic .divisionByZero amount
  else if spot_price < ((quote / amount : Nat) : ℚ) then .panic .subtractionUnderflow amount
  else if quote / amount = 0 then .panic .divisionByZero amount
  else if (spot_price - ((quote / amount : Nat) : ℚ)) / ((quote / amount : Nat) : ℚ) ≤ bound
  then .ok ⟨in_denom, amount⟩ ⟨to_coin_denom, quote⟩
  else sizing_loop spot_price bound quote in_denom to_coin_denom (amount / 2)
termination_by amount
decreasing_by exact Nat.div_lt_self (Nat.pos_of_ne_zero h0) one_lt_two

/-- The value of the loop body's deviation check at a given state, when that
body computes it without panicking: `none` when the body would panic first
(zero amount, `Decimal` underflow, or zero truncated price), otherwise
`some (deviation ≤ bound)`. -/
def dev_check (spot_price bound : ℚ) (quote amount : Nat) : Option Bool :=
  if amount = 0 then none
  else if spot_price < ((quote / amount : Nat) : ℚ) then none
  else if quote / amount = 0 then none
  else some (decide
    ((spot_price - ((quote / amount : Nat) : ℚ)) / ((quote / amount : Nat) : ℚ) ≤ bound))

/-- `commands.rs::estimate_price_impact_twap_min_input_output`.

External querier calls are abstracted as their results: `pool_ok` is whether
`poolmanager_querier.pool(pool_id)` succeeded (the result itself is unused by
the source), `spot_price` is the parse result of the queried spot-price string
(`none` = `InvalidSpotPrice`), and `quote` is the constant token-out amount
answered by the estimate query as explained at `sizing_loop`.

Before the loop the source computes
`price_deviation = (spot_price - twap_price) / twap_price` and
`max_price_impact = max_price_impact - price_deviation` in unsigned `Decimal`
arithmetic (the reassignments lack `mut` in the source and are read as the
evident intended reassignment); the corresponding underflow/zero-divisor
panics are modelled explicitly. -/
def estimate_price_impact_twap_min_input_output (pool_ok : Bool)
    (spot_price : Option ℚ) (quote : Nat) (input_coin : Coin) (to_coin_denom : String)
    (max_price_impact twap_price : ℚ) : SizingExit :=
  if pool_ok = false then .err .std
  else
    match spot_price with
    | none => .err .invalidSpotPrice
    | some spot_price =>
      if spot_price < twap_price then .panic .subtractionUnderflow input_coin.amount
      else if twap_price = 0 then .panic .divisionByZero input_coin.amount
      else if max_price_impact < (spot_price - twap_price) / twap_price then
        .panic .subtractionUnderflow input_coin.amount
      else
        sizing_loop spot_price (max_price_impact - (spot_price - twap_price) / twap_price)
          quote input_coin.denom to_coin_denom input_coin.amount

/-- Spec-side reconstruction of the message the recorded after-swap action
prescribes for a given output coin, used to state that the dispatcher's
emission matches the recorded action (`none` for the ill-formed non-mapping
memo, where the source panics instead of emitting). -/
def expected_after_swap_submsg (env : Env) (act : AfterSwapAction) (out : Coin) :
    Option SubMsg :=
  match act with
  | .bankSend receiver => some (SubMsg.new (.bank receiver [out]))
  | .customCall contract_address msg =>
    some (SubMsg.new (.wasmExecute contract_address (.custom msg) [out]))
  | .ibcTransfer receiver channel next_memo =>
    match next_memo.getD (Json.obj []) with
    | .obj m =>
      some (SubMsg.reply_on_success
        (.ibcTransfer
          { source_port := TRANSFER_PORT
            source_channel := channel
            token := some out
            sender := env.contractAddress
            receiver := receiver
            timeout_height := none
            timeout_timestamp := some (env.blockTimeNanos + IBC_PACKET_LIFITIME * 1000000000)
            memo := Json.serialize
              (.obj (Json.insertKey m IBC_CALLBACK (.str env.contractAddress))) })
        .ibcTransfer)
    | _ => none

/-- The memo base the dispatcher merges into: the caller-supplied memo, or an
empty JSON object when absent (the source's
`next_memo.unwrap_or_else(|| serde_json_wasm::from_str("\x7b\x7d").unwrap())`). -/
def memo_base (next_memo : Option Json) : Json := next_memo.getD (Json.obj [])

/-- The memo string of the single IBC transfer emitted by a response, when the
response has that shape. -/
def memo_of_response (resp : Response) : Option String :=
  match resp.messages with
  | [⟨.ibcTransfer t, _, _⟩] => some t.memo
  | _ => none

/-- The multi-swap step emitted by a response, when the response is exactly
one self-addressed `SwapWithAction` call tagged `MultiSwap`, resuming on
success, with the step's `amount_in` as its single attached coin. -/
def step_of_response (env : Env) (resp : Response) : Option MultiSwapMsg :=
  match resp.messages with
  | [⟨.wasmExecute addr (.swapWithAction sm act _fb) [amt], some MsgReplyId.multiSwap,
      ReplyOn.success⟩] =>
    if addr = env.contractAddress then some ⟨sm, act, amt⟩ else none
  | _ => none

/-- Iterated resumption of the multi-swap driver: run `handle_multiswap_reply`
up to `n` times, collecting the step emitted at each resume, and stopping at
the terminating resume (no step emitted) or on an error. -/
def drain (env : Env) : Storage → Nat → List MultiSwapMsg × Storage
  | st, 0 => ([], st)
  | st, n + 1 =>
    match handle_multiswap_reply st env with
    | .ok st1 resp =>
      match step_of_response env resp with
      | some m =>
        let p := drain env st1 n
        (m :: p.1, p.2)
      | none => ([], st1)
    | _ => ([], st)

/-- C1: for every call to `swap`, if a `SwapReplyState` already exists in
storage, the call fails with the `ContractLocked` (re-entrancy) error
regardless of the new swap's parameters; the error result carries no storage
mutation (the host rolls a failed call back), so storage is left unchanged. -/
theorem swap_locked_when_swap_reply_state_exists
    (st : Storage) (built_swap_msg : Option String) (funds : List Coin)
    (act : AfterSwapAction) (fb : String) (x : SwapReplyState)
    (h : st.swapReply = some x) :
    swap st built_swap_msg funds act fb = .err .contractLocked := by
  simp [swap, swap_reply_state_exists, h]

/-- Concrete instance of C1: a pending bank-send continuation blocks a second
swap whatever its funds, action and parameters. -/
theorem swap_locked_when_swap_reply_state_exists_witness :
    (⟨some ⟨.bankSend "alice", "fb"⟩, none, none, []⟩ : Storage).swapReply
        = some ⟨.bankSend "alice", "fb"⟩ ∧
    swap ⟨some ⟨.bankSend "alice", "fb"⟩, none, none, []⟩ (some "m") [⟨"uatom", 7⟩]
        (.bankSend "bob") "fb2" = .err .contractLocked :=
  ⟨rfl, swap_locked_when_swap_reply_state_exists _ _ _ _ _ _ rfl⟩

/-- C4: `handle_multiswap` with an empty step list fails with
`InvalidAmountOfSwaps` before any state mutation (the error result carries no
storage). -/
theorem multiswap_empty_rejected (st : Storage) (env : Env) (fb : String) :
    handle_multiswap st env [] fb = .err .invalidAmountOfSwaps := rfl

/-- C2: for every successful swap reply processed by
`handle_after_swap_action`, the emitted message matches exactly the
`AfterSwapAction` recorded in `SwapReplyState` at initiation time, and the
`SwapReplyState` continuation slot is empty immediately after. -/
theorem after_swap_action_matches_recorded
    (st : Storage) (env : Env) (out : Coin) (info : SwapReplyState)
    (st1 : Storage) (resp : Response)
    (hslot : st.swapReply = some info)
    (hok : handle_after_swap_action st env (some out) = .ok st1 resp) :
    st1.swapReply = none ∧
      ∃ s, expected_after_swap_submsg env info.after_swap_action out = some s ∧
        resp.messages = [s] := by
  cases hact : info.after_swap_action with
  | bankSend receiver =>
    simp only [handle_after_swap_action, load_swap_reply_state, hslot, Option.map_some',
      hact] at hok
    cases hok
    exact ⟨rfl, _, by simp [expected_after_swap_submsg], rfl⟩
  | customCall addr msg =>
    simp only [handle_after_swap_action, load_swap_reply_state, hslot, Option.map_some',
      hact] at hok
    cases hok
    exact ⟨rfl, _, by simp [expected_after_swap_submsg], rfl⟩
  | ibcTransfer receiver channel next_memo =>
    simp only [handle_after_swap_action, load_swap_reply_state, hslot, Option.map_some',
      hact] at hok
    cases hm : next_memo.getD (Json.obj []) with
    | obj m =>
      rw [hm] at hok
      cases hok
      refine ⟨rfl, _, ?_, rfl⟩
      simp [expected_after_swap_submsg, hm]
    | str s => rw [hm] at hok; cases hok
    | num n => rw [hm] at hok; cases hok
    | bool b => rw [hm] at hok; cases hok
    | null => rw [hm] at hok; cases hok
    | arr xs => rw [hm] at hok; cases hok

/-- Concrete instance of C2: a recorded bank-send continuation is dispatched
as exactly the recorded bank send and the slot is empty afterwards. -/
theorem after_swap_action_matches_recorded_witness :
    (⟨some ⟨.bankSend "alice", "fb"⟩, none, none, []⟩ : Storage).swapReply
        = some ⟨.bankSend "alice", "fb"⟩ ∧
    handle_after_swap_action ⟨some ⟨.bankSend "alice", "fb"⟩, none, none, []⟩
        ⟨"self", 0⟩ (some ⟨"uatom", 5⟩)
      = .ok ⟨none, none, none, []⟩ ⟨[SubMsg.new (.bank "alice" [⟨"uatom", 5⟩])]⟩ ∧
    ((⟨none, none, none, []⟩ : Storage).swapReply = none ∧
      ∃ s, expected_after_swap_submsg ⟨"self", 0⟩
            (SwapReplyState.mk (.bankSend "alice") "fb").after_swap_action ⟨"uatom", 5⟩
          = some s ∧
        (Response.mk [SubMsg.new (.bank "alice" [⟨"uatom", 5⟩])]).messages = [s]) :=
  ⟨rfl, rfl,
    after_swap_action_matches_recorded ⟨some ⟨.bankSend "alice", "fb"⟩, none, none, []⟩
      ⟨"self", 0⟩ ⟨"uatom", 5⟩ ⟨.bankSend "alice", "fb"⟩ ⟨none, none, none, []⟩
      ⟨[SubMsg.new (.bank "alice" [⟨"uatom", 5⟩])]⟩ rfl rfl⟩

/-- C5 (counterexample to the claim as stated): a memo whose base is not a
mapping does not fail with the `InvalidMemo` error — the source hits
`unreachable!` and panics, which is no `ContractError` at all. -/
theorem memo_non_map_panics_not_invalid_memo :
    handle_after_swap_action
        ⟨some ⟨.ibcTransfer "bob" "channel-0" (some (Json.str "not-a-map")), "fb"⟩,
          none, none, []⟩
        ⟨"self", 0⟩ (some ⟨"uatom", 5⟩) = CmdResult.panic ∧
    ∀ e, CmdResult.panic ≠ CmdResult.err e :=
  ⟨rfl, fun _ h => CmdResult.noConfusion h⟩

/-- C5 (amended): for every `IbcTransfer` after-swap action whose memo base is
a valid JSON-object mapping `M` (default: empty map when absent), the outgoing
IBC memo equals `M` with the single key `ibc_callback` set to this contract's
address; a memo whose base is not a mapping makes the call panic (the
source's `unreachable!`) rather than fail with `InvalidMemo`. -/
theorem memo_merge_amended :
    (∀ (st : Storage) (env : Env) (out : Coin) (info : SwapReplyState)
        (receiver channel : String) (next_memo : Option Json) (m : List (String × Json)),
      st.swapReply = some info →
      info.after_swap_action = .ibcTransfer receiver channel next_memo →
      memo_base next_memo = Json.obj m →
      ∃ st2 resp, handle_after_swap_action st env (some out) = .ok st2 resp ∧
        memo_of_response resp = some (Json.serialize
          (.obj (Json.insertKey m IBC_CALLBACK (.str env.contractAddress))))) ∧
    (∀ (st : Storage) (env : Env) (out : Coin) (info : SwapReplyState)
        (receiver channel : String) (next_memo : Option Json),
      st.swapReply = some info →
      info.after_swap_action = .ibcTransfer receiver channel next_memo →
      (∀ m, memo_base next_memo ≠ Json.obj m) →
      handle_after_swap_action st env (some out) = .panic) := by
  constructor
  · intro st env out info receiver channel next_memo m hslot hact hm
    rw [memo_base] at hm
    simp only [handle_after_swap_action, load_swap_reply_state, hslot, Option.map_some',
      hact, hm]
    exact ⟨_, _, rfl, by simp [memo_of_response, SubMsg.reply_on_success]⟩
  · intro st env out info receiver channel next_memo hslot hact hm
    simp only [handle_after_swap_action, load_swap_reply_state, hslot, Option.map_some',
      hact]
    cases hb : next_memo.getD (Json.obj []) with
    | obj m => exact absurd (by rw [memo_base, hb]) (hm m)
    | str s => rfl
    | num n => rfl
    | bool b => rfl
    | null => rfl
    | arr xs => rfl

/-- Concrete instance of C5 (amended): a one-key object memo comes out with
`ibc_callback` added, and a string-base memo panics. -/
theorem memo_merge_amended_witness :
    ((⟨some ⟨.ibcTransfer "bob" "channel-0" (some (Json.obj [("k", Json.str "v")])), "fb"⟩,
        none, none, []⟩ : Storage).swapReply
      = some ⟨.ibcTransfer "bob" "channel-0" (some (Json.obj [("k", Json.str "v")])), "fb"⟩) ∧
    (∃ st2 resp,
      handle_after_swap_action
          ⟨some ⟨.ibcTransfer "bob" "channel-0" (some (Json.obj [("k", Json.str "v")])), "fb"⟩,
            none, none, []⟩ ⟨"self", 3⟩ (some ⟨"uatom", 5⟩) = .ok st2 resp ∧
      memo_of_response resp = some (Json.serialize
        (.obj (Json.insertKey [("k", Json.str "v")] IBC_CALLBACK (.str "self"))))) ∧
    handle_after_swap_action
        ⟨some ⟨.ibcTransfer "bob" "channel-0" (some (Json.num 4)), "fb"⟩, none, none, []⟩
        ⟨"self", 3⟩ (some ⟨"uatom", 5⟩) = .panic :=
  ⟨rfl,
    memo_merge_amended.1 _ ⟨"self", 3⟩ ⟨"uatom", 5⟩ _ "bob" "channel-0" _ _ rfl rfl rfl,
    memo_merge_amended.2 _ ⟨"self", 3⟩ ⟨"uatom", 5⟩ _ "bob" "channel-0" _ rfl rfl
      (fun _ h => Json.noConfusion h)⟩

/-- C6: a successful `IbcTransfer` after-swap action emits exactly one IBC
transfer request with source port `"transfer"`, the caller-chosen channel, the
swap's output coin as token, a timeout timestamp of the block time plus
604800 seconds, no timeout height, and the merged memo, tagged `IbcTransfer`
and resuming on success only; the updated storage holds the
`IbcTransferReplyState` with the fallback address, channel and output
denom/amount. -/
theorem ibc_transfer_emission_shape
    (st : Storage) (env : Env) (out : Coin) (info : SwapReplyState)
    (receiver channel : String) (next_memo : Option Json) (m : List (String × Json))
    (hslot : st.swapReply = some info)
    (hact : info.after_swap_action = .ibcTransfer receiver channel next_memo)
    (hm : memo_base next_memo = Json.obj m) :
    handle_after_swap_action st env (some out) =
      .ok ⟨none, some ⟨info.local_fallback_address, channel, out.denom, out.amount⟩,
            st.multiSwap, st.awaitingIbcTransfer⟩
        ⟨[SubMsg.reply_on_success
            (.ibcTransfer
              { source_port := "transfer"
                source_channel := channel
                token := some out
                sender := env.contractAddress
                receiver := receiver
                timeout_height := none
                timeout_timestamp := some (env.blockTimeNanos + 604800 * 1000000000)
                memo := Json.serialize
                  (.obj (Json.insertKey m IBC_CALLBACK (.str env.contractAddress))) })
            MsgReplyId.ibcTransfer]⟩ := by
  rw [memo_base] at hm
  simp only [handle_after_swap_action, load_swap_reply_state, hslot, Option.map_some',
    hact, hm, store_ibc_transfer_reply_state, TRANSFER_PORT, IBC_PACKET_LIFITIME]

/-- Concrete instance of C6: absent memo (defaults to the empty map), explicit
transfer request and persisted `IbcTransferReplyState`. -/
theorem ibc_transfer_emission_shape_witness :
    (⟨some ⟨.ibcTransfer "bob" "channel-0" none, "fb"⟩, none, none, []⟩ : Storage).swapReply
        = some ⟨.ibcTransfer "bob" "channel-0" none, "fb"⟩ ∧
    memo_base none = Json.obj [] ∧
    handle_after_swap_action
        ⟨some ⟨.ibcTransfer "bob" "channel-0" none, "fb"⟩, none, none, []⟩
        ⟨"self", 11⟩ (some ⟨"uatom", 5⟩) =
      .ok ⟨none, some ⟨"fb", "channel-0", "uatom", 5⟩, none, []⟩
        ⟨[SubMsg.reply_on_success
            (.ibcTransfer
              { source_port := "transfer"
                source_channel := "channel-0"
                token := some ⟨"uatom", 5⟩
                sender := "self"
                receiver := "bob"
                timeout_height := none
                timeout_timestamp := some (11 + 604800 * 1000000000)
                memo := Json.serialize
                  (.obj (Json.insertKey [] IBC_CALLBACK (.str "self"))) })
            MsgReplyId.ibcTransfer]⟩ :=
  ⟨rfl, rfl,
    ibc_transfer_emission_shape _ ⟨"self", 11⟩ ⟨"uatom", 5⟩ _ "bob" "channel-0" none []
      rfl rfl rfl⟩

/-- C7: `handle_ibc_transfer_reply` fails with `FailedIBCTransfer` exactly
when the reply is not a success carrying response data or the data does not
decode as a `MsgTransferResponse`; otherwise (with an in-flight transfer
recorded) it decodes the sequence number, loads and clears
`IbcTransferReplyState`, and stores the `AwaitingIbcTransfer` record keyed by
that sequence number. -/
theorem ibc_transfer_reply_spec (st : Storage) (reply : Reply)
    (decode : List Nat → Option Nat) :
    (handle_ibc_transfer_reply st reply decode = .err .failedIBCTransfer
        ↔ ∀ b, good_data reply = some b → decode b = none) ∧
    (∀ b s info, good_data reply = some b → decode b = some s →
        st.ibcTransferReply = some info →
        ∃ st2, handle_ibc_transfer_reply st reply decode = .ok st2 ⟨[]⟩ ∧
          st2.ibcTransferReply = none ∧ lookup_awaiting st2 s = some info) := by
  constructor
  · cases hgd : good_data reply with
    | none => simp [handle_ibc_transfer_reply, hgd]
    | some b =>
      cases hdec : decode b with
      | none =>
        simp only [handle_ibc_transfer_reply, hgd, hdec]
        exact ⟨fun _ b' hb' => by cases hb'; exact hdec, fun _ => by trivial⟩
      | some s =>
        simp only [handle_ibc_transfer_reply, hgd, hdec]
        constructor
        · intro hbad
          cases hload : st.ibcTransferReply with
          | none =>
            rw [show load_ibc_transfer_reply_state st = none by
              simp [load_ibc_transfer_reply_state, hload]] at hbad
            cases hbad
          | some info =>
            rw [show load_ibc_transfer_reply_state st
                = some (info, { st with ibcTransferReply := none }) by
              simp [load_ibc_transfer_reply_state, hload]] at hbad
            cases hbad
        · intro hall
          exact absurd (hall b rfl) (by simp [hdec])
  · intro b s info hgd hdec hload
    simp only [handle_ibc_transfer_reply, hgd, hdec, load_ibc_transfer_reply_state,
      hload, Option.map_some']
    exact ⟨_, rfl, rfl, by simp [lookup_awaiting, store_awaiting_ibc_transfer]⟩

/-- Concrete instance of C7: a success reply with decodable data and a
recorded in-flight transfer stores the awaiting record under the decoded
sequence number and clears the transfer slot. -/
theorem ibc_transfer_reply_spec_witness :
    good_data ⟨2, .ok (some [5])⟩ = some [5] ∧
    (fun b : List Nat => b.head?) [5] = some 5 ∧
    (⟨none, some ⟨"fb", "channel-1", "uatom", 9⟩, none, []⟩ : Storage).ibcTransferReply
        = some ⟨"fb", "channel-1", "uatom", 9⟩ ∧
    ∃ st2, handle_ibc_transfer_reply ⟨none, some ⟨"fb", "channel-1", "uatom", 9⟩, none, []⟩
          ⟨2, .ok (some [5])⟩ (fun b => b.head?) = .ok st2 ⟨[]⟩ ∧
      st2.ibcTransferReply = none ∧
      lookup_awaiting st2 5 = some ⟨"fb", "channel-1", "uatom", 9⟩ :=
  ⟨rfl, rfl, rfl,
    (ibc_transfer_reply_spec _ _ _).2 [5] 5 ⟨"fb", "channel-1", "uatom", 9⟩ rfl rfl rfl⟩

/-- One resume of the multi-swap driver on a nonempty queue: the last element
is popped, the shorter queue is persisted, and the popped step is emitted as a
self-addressed call tagged `MultiSwap`. -/
theorem handle_multiswap_reply_pop (env : Env) (st : Storage)
    (pre : List MultiSwapMsg) (a : MultiSwapMsg) (fb : String)
    (h : st.multiSwap = some ⟨pre ++ [a], fb⟩) :
    handle_multiswap_reply st env =
      .ok { st with multiSwap := some ⟨pre, fb⟩ }
        ⟨[SubMsg.reply_on_success
            (.wasmExecute env.contractAddress
              (.swapWithAction a.swap_msg a.after_swap_action fb) [a.amount_in])
            .multiSwap]⟩ := by
  simp [handle_multiswap_reply, load_multi_swap_state, h, List.getLast?_concat,
    List.dropLast_concat, store_multi_swap_state]

/-- The response emitted for a popped step is recognised as that step. -/
theorem step_of_response_self (env : Env) (a : MultiSwapMsg) (fb : String) :
    step_of_response env
      ⟨[SubMsg.reply_on_success
          (.wasmExecute env.contractAddress
            (.swapWithAction a.swap_msg a.after_swap_action fb) [a.amount_in])
          .multiSwap]⟩ = some a := by
  cases a
  simp [step_of_response, SubMsg.reply_on_success]

/-- Unfolding of one collecting resume of `drain`. -/
theorem drain_step (env : Env) (st st1 : Storage) (resp : Response) (m : MultiSwapMsg)
    (n : Nat) (h1 : handle_multiswap_reply st env = .ok st1 resp)
    (h2 : step_of_response env resp = some m) :
    drain env st (n + 1) = (m :: (drain env st1 n).1, (drain env st1 n).2) := by
  simp only [drain, h1, h2]

/-- After `k ≤ |q|` resumes starting from a storage whose queue holds the
reversed `q`, the collected steps are the first `k` elements of `q` in order
and the persisted queue holds the reversed remainder (in particular the
multi-swap record is still present). -/
theorem drain_partial (env : Env) (fb : String) :
    ∀ (k : Nat) (q : List MultiSwapMsg) (st : Storage),
      st.multiSwap = some ⟨q.reverse, fb⟩ → k ≤ q.length →
      (drain env st k).1 = q.take k ∧
      ((drain env st k).2).multiSwap = some ⟨(q.drop k).reverse, fb⟩ := by
  intro k
  induction k with
  | zero => intro q st h _; exact ⟨rfl, by simpa [drain] using h⟩
  | succ k ih =>
    intro q st h hk
    cases q with
    | nil => exact absurd hk (by simp)
    | cons a rest =>
      have hstep := handle_multiswap_reply_pop env st rest.reverse a fb
        (by simpa [List.reverse_cons] using h)
      have hrec := ih rest { st with multiSwap := some ⟨rest.reverse, fb⟩ } rfl
        (Nat.le_of_succ_le_succ hk)
      simp only [drain, hstep, step_of_response_self]
      exact ⟨by simp [hrec.1], by simpa using hrec.2⟩

/-- Running one more resume than there are steps drains the whole queue in
submitted order and removes the multi-swap record. -/
theorem drain_full (env : Env) (fb : String) :
    ∀ (q : List MultiSwapMsg) (st : Storage),
      st.multiSwap = some ⟨q.reverse, fb⟩ →
      drain env st (q.length + 1) = (q, { st with multiSwap := none }) := by
  intro q
  induction q with
  | nil =>
    intro st h
    simp [drain, handle_multiswap_reply, load_multi_swap_state, h,
      remove_multi_swap_state, step_of_response]
  | cons a rest ih =>
    intro st h
    have hstep := handle_multiswap_reply_pop env st rest.reverse a fb
      (by simpa [List.reverse_cons] using h)
    have hrec := ih { st with multiSwap := some ⟨rest.reverse, fb⟩ } rfl
    rw [List.length_cons,
      drain_step env st { st with multiSwap := some ⟨rest.reverse, fb⟩ } _ a
        (rest.length + 1) hstep (step_of_response_self env a fb),
      hrec]

/-- C3: a non-empty multi-swap submission `[A, ..., Z]` executes its steps in
first-submitted-first-executed order: ingestion reverses the list, the first
resume (performed immediately by `handle_multiswap`) pops `A` from the end and
persists the queue shorter by one; each of the first `|swaps|` resumes emits
exactly one self-addressed swap call tagged `MultiSwap` carrying that step's
`amount_in` as funds while the record stays present holding the reversed
remainder; the record is removed only on the resume that finds the queue
empty, i.e. after the last step completes. -/
theorem multiswap_fifo_order (env : Env) (st : Storage) (swaps : List MultiSwapMsg)
    (fb : String) (h : swaps ≠ []) :
    (∃ st1 resp, handle_multiswap st env swaps fb = .ok st1 resp ∧
        step_of_response env resp = swaps.head? ∧
        st1.multiSwap = some ⟨(swaps.drop 1).reverse, fb⟩) ∧
    (∀ k, k ≤ swaps.length →
        (drain env (store_multi_swap_state st ⟨swaps.reverse, fb⟩) k).1 = swaps.take k ∧
        ((drain env (store_multi_swap_state st ⟨swaps.reverse, fb⟩) k).2).multiSwap
          = some ⟨(swaps.drop k).reverse, fb⟩) ∧
    drain env (store_multi_swap_state st ⟨swaps.reverse, fb⟩) (swaps.length + 1)
      = (swaps, { st with multiSwap := none }) := by
  refine ⟨?_, fun k hk => drain_partial env fb k swaps _ rfl hk,
    drain_full env fb swaps _ rfl⟩
  cases swaps with
  | nil => exact absurd rfl h
  | cons a rest =>
    have hstep := handle_multiswap_reply_pop env
      (store_multi_swap_state st ⟨(a :: rest).reverse, fb⟩) rest.reverse a fb
      (by simp [store_multi_swap_state, List.reverse_cons])
    have hmain : handle_multiswap st env (a :: rest) fb =
        .ok { st with multiSwap := some ⟨rest.reverse, fb⟩ }
          ⟨[SubMsg.reply_on_success
              (.wasmExecute env.contractAddress
                (.swapWithAction a.swap_msg a.after_swap_action fb) [a.amount_in])
              .multiSwap]⟩ := by
      rw [handle_multiswap, if_neg (by simp)]
      exact hstep
    exact ⟨_, _, hmain, step_of_response_self env a fb, rfl⟩

/-- Concrete instance of C3: three queued swaps of 100 uatom each run in
submitted order; after the first resume the stored queue has length 2, and
after the third step completes the record is removed. -/
theorem multiswap_fifo_order_witness :
    ([(⟨⟨"s1"⟩, .bankSend "r1", ⟨"uatom", 100⟩⟩ : MultiSwapMsg),
      ⟨⟨"s2"⟩, .bankSend "r2", ⟨"uatom", 100⟩⟩,
      ⟨⟨"s3"⟩, .bankSend "r3", ⟨"uatom", 100⟩⟩] ≠ []) ∧
    ((∃ st1 resp, handle_multiswap ⟨none, none, none, []⟩ ⟨"self", 0⟩
          [⟨⟨"s1"⟩, .bankSend "r1", ⟨"uatom", 100⟩⟩,
           ⟨⟨"s2"⟩, .bankSend "r2", ⟨"uatom", 100⟩⟩,
           ⟨⟨"s3"⟩, .bankSend "r3", ⟨"uatom", 100⟩⟩] "fb" = .ok st1 resp ∧
        step_of_response ⟨"self", 0⟩ resp
          = [(⟨⟨"s1"⟩, .bankSend "r1", ⟨"uatom", 100⟩⟩ : MultiSwapMsg),
             ⟨⟨"s2"⟩, .bankSend "r2", ⟨"uatom", 100⟩⟩,
             ⟨⟨"s3"⟩, .bankSend "r3", ⟨"uatom", 100⟩⟩].head? ∧
        st1.multiSwap = some ⟨([(⟨⟨"s1"⟩, .bankSend "r1", ⟨"uatom", 100⟩⟩ : MultiSwapMsg),
             ⟨⟨"s2"⟩, .bankSend "r2", ⟨"uatom", 100⟩⟩,
             ⟨⟨"s3"⟩, .bankSend "r3", ⟨"uatom", 100⟩⟩].drop 1).reverse, "fb"⟩) ∧
      (∀ k, k ≤ 3 →
        (drain ⟨"self", 0⟩ (store_multi_swap_state ⟨none, none, none, []⟩
            ⟨[(⟨⟨"s1"⟩, .bankSend "r1", ⟨"uatom", 100⟩⟩ : MultiSwapMsg),
              ⟨⟨"s2"⟩, .bankSend "r2", ⟨"uatom", 100⟩⟩,
              ⟨⟨"s3"⟩, .bankSend "r3", ⟨"uatom", 100⟩⟩].reverse, "fb"⟩) k).1
          = [(⟨⟨"s1"⟩, .bankSend "r1", ⟨"uatom", 100⟩⟩ : MultiSwapMsg),
             ⟨⟨"s2"⟩, .bankSend "r2", ⟨"uatom", 100⟩⟩,
             ⟨⟨"s3"⟩, .bankSend "r3", ⟨"uatom", 100⟩⟩].take k ∧
        ((drain ⟨"self", 0⟩ (store_multi_swap_state ⟨none, none, none, []⟩
            ⟨[(⟨⟨"s1"⟩, .bankSend "r1", ⟨"uatom", 100⟩⟩ : MultiSwapMsg),
              ⟨⟨"s2"⟩, .bankSend "r2", ⟨"uatom", 100⟩⟩,
              ⟨⟨"s3"⟩, .bankSend "r3", ⟨"uatom", 100⟩⟩].reverse, "fb"⟩) k).2).multiSwap
          = some ⟨([(⟨⟨"s1"⟩, .bankSend "r1", ⟨"uatom", 100⟩⟩ : MultiSwapMsg),
             ⟨⟨"s2"⟩, .bankSend "r2", ⟨"uatom", 100⟩⟩,
             ⟨⟨"s3"⟩, .bankSend "r3", ⟨"uatom", 100⟩⟩].drop k).reverse, "fb"⟩) ∧
      drain ⟨"self", 0⟩ (store_multi_swap_state ⟨none, none, none, []⟩
          ⟨[(⟨⟨"s1"⟩, .bankSend "r1", ⟨"uatom", 100⟩⟩ : MultiSwapMsg),
            ⟨⟨"s2"⟩, .bankSend "r2", ⟨"uatom", 100⟩⟩,
            ⟨⟨"s3"⟩, .bankSend "r3", ⟨"uatom", 100⟩⟩].reverse, "fb"⟩) 4
        = ([(⟨⟨"s1"⟩, .bankSend "r1", ⟨"uatom", 100⟩⟩ : MultiSwapMsg),
            ⟨⟨"s2"⟩, .bankSend "r2", ⟨"uatom", 100⟩⟩,
            ⟨⟨"s3"⟩, .bankSend "r3", ⟨"uatom", 100⟩⟩], ⟨none, none, none, []⟩)) :=
  ⟨by simp,
    multiswap_fifo_order ⟨"self", 0⟩ ⟨none, none, none, []⟩
      [⟨⟨"s1"⟩, .bankSend "r1", ⟨"uatom", 100⟩⟩,
       ⟨⟨"s2"⟩, .bankSend "r2", ⟨"uatom", 100⟩⟩,
       ⟨⟨"s3"⟩, .bankSend "r3", ⟨"uatom", 100⟩⟩] "fb" (by simp)⟩

/-- C8 (evaluating the code at a failing input): the sizing search's estimate
query sends only the input denomination, never the current amount, so the
quoted output is one constant across iterations.  Here the loop halves the
input from 1000 to 500 and then succeeds, yet the returned `amount_out` is
still the quote obtained for the original size (1000), which no
amount-dependent pool could have produced for an input of 500 under the
claimed per-amount quoting. -/
theorem sizing_quote_independent_of_amount :
    estimate_price_impact_twap_min_input_output true (some 2) 1000 ⟨"uin", 1000⟩ "uout"
        (1 / 20) 2 = .ok ⟨"uin", 500⟩ ⟨"uout", 1000⟩ := by
  rw [estimate_price_impact_twap_min_input_output]
  norm_num
  rw [sizing_loop]
  norm_num
  rw [sizing_loop]
  norm_num

/-- C9 (evaluating the code at the claimed scenario): with input 1,000,000
uosmo, reference and spot price 1.00, a pool quote of 970,000 and
`max_price_impact = 0.05`, the source computes
`curr_trade_price = 970000 / 1000000 = 0` by truncating `Uint128` division
and then panics dividing by that zero, instead of returning
`amount_in = 1000000`, `amount_out = 970000` as the claim states. -/
theorem sizing_scenario_panics :
    estimate_price_impact_twap_min_input_output true (some 1) 970000 ⟨"uosmo", 1000000⟩
        "uatom" (1 / 20) 1 = .panic .divisionByZero 1000000 := by
  rw [estimate_price_impact_twap_min_input_output]
  norm_num
  rw [sizing_loop]
  norm_num

/-- C10: in every execution of the sizing loop in which the quoted output is
nonzero and every deviation check that gets evaluated comes out false, the
repeated truncating halving drives the input amount to zero, and the next
iteration's `token_out.amount / input_coin.amount` divides by zero — the loop
body is not total (it panics) rather than terminating with a defined error. -/
theorem sizing_loop_reaches_zero_then_div_by_zero
    (spot_price bound : ℚ) (quote n : Nat) (in_denom to_coin_denom : String)
    (hq : quote ≠ 0)
    (hdev : ∀ k, 0 < n / 2 ^ k → dev_check spot_price bound quote (n / 2 ^ k) = some false) :
    sizing_loop spot_price bound quote in_denom to_coin_denom n
      = .panic .divisionByZero 0 := by
  induction n using Nat.strong_induction_on with
  | _ n ih =>
    rw [sizing_loop, if_neg hq]
    by_cases h0 : n = 0
    · subst h0
      simp
    · have hd := hdev 0 (by simpa using Nat.pos_of_ne_zero h0)
      rw [pow_zero, Nat.div_one] at hd
      rw [dev_check, if_neg h0] at hd
      by_cases h1 : spot_price < ((quote / n : Nat) : ℚ)
      · rw [if_pos h1] at hd
        exact absurd hd (by simp)
      · rw [if_neg h1] at hd
        by_cases h2 : quote / n = 0
        · rw [if_pos h2] at hd
          exact absurd hd (by simp)
        · rw [if_neg h2] at hd
          have h3 : ¬ ((spot_price - ((quote / n : Nat) : ℚ)) / ((quote / n : Nat) : ℚ)
              ≤ bound) :=
            of_decide_eq_false (Option.some.inj hd)
          rw [dif_neg h0, if_neg h1, if_neg h2, if_neg h3]
          have hshift : ∀ k, n / 2 / 2 ^ k = n / 2 ^ (k + 1) := by
            intro k
            rw [Nat.div_div_eq_div_mul, pow_succ, Nat.mul_comm 2 (2 ^ k)]
          exact ih (n / 2) (Nat.div_lt_self (Nat.pos_of_ne_zero h0) one_lt_two)
            (fun k hk => by
              rw [hshift k] at hk
              rw [hshift k]
              exact hdev (k + 1) hk)

/-- Concrete instance of C10: quote 2, spot price 100, bound 0, starting
amount 2 — both evaluated deviation checks are false, the amount reaches zero
after two halvings and the loop panics with a division by zero there. -/
theorem sizing_loop_reaches_zero_then_div_by_zero_witness :
    ((2 : Nat) ≠ 0) ∧
    (∀ k, 0 < 2 / 2 ^ k → dev_check 100 0 2 (2 / 2 ^ k) = some false) ∧
    sizing_loop 100 0 2 "uin" "uout" 2 = .panic .divisionByZero 0 := by
  have hdev : ∀ k, 0 < 2 / 2 ^ k → dev_check 100 0 2 (2 / 2 ^ k) = some false := by
    intro k
    match k with
    | 0 => intro _; norm_num [dev_check]
    | 1 => intro _; norm_num [dev_check]
    | (k + 2) =>
      intro hk
      exfalso
      have h22 : (4 : Nat) ≤ 2 ^ (k + 2) := by
        have := Nat.pow_le_pow_right (show 1 ≤ 2 by norm_num) (show 2 ≤ k + 2 by omega)
        simpa using this
      have hz : 2 / 2 ^ (k + 2) = 0 := Nat.div_eq_of_lt (by omega)
      rw [hz] at hk
      exact absurd hk (by simp)
  exact ⟨by decide, hdev,
    sizing_loop_reaches_zero_then_div_by_zero 100 0 2 2 "uin" "uout" (by decide) hdev⟩

end Osmosis
